import Mathlib

/-!
Verification of the response/error envelope and auth middleware layer.

Shallow embedding of the Go backend template's response/error subsystem
(`internal/response/error.go`, the echo success builder, the gin response
variant, the validation translator) and of the JWT middleware helpers
(`internal/features/example/service.go`, `middleware` chunks).

Conventions of the embedding:
* Go `error` values reaching the central handler are modelled by the
  inductive `GoError`, whose constructors match the three cases the
  handler's `errors.As` dispatch distinguishes (`*AppError`,
  `*echo.HTTPError`, anything else).  None of the repository's error
  types implements `Unwrap`, so `errors.As` succeeds exactly on the top
  constructor.
* `time.Now()` is modelled by a `Clock` carrying both renderings the
  source uses: the RFC3339 string (`time.Now().Format(time.RFC3339)`)
  and the unix-seconds integer (`time.Now().Unix()`).
* JSON serialization with `omitempty` is modelled by the
  `serializedKeys` functions: a key tagged `omitempty` is present
  exactly when its value is non-zero (non-empty string / non-nil
  interface).
* The echo response object is modelled by `EchoResponse`: the
  `Committed` flag, the `X-Request-Id` header, and the ordered list of
  writes performed on it (`c.JSON` / `c.NoContent` append a write and
  set `Committed`).
-/

namespace GoBackend

/-- Opaque JSON payload placed in a success envelope's `data` field. -/
abbrev DataVal := String

/-- One `{field, message}` entry, `response.ValidationError` in
`internal/response/error.go`. -/
structure ValidationError where
  field : String
  message : String
deriving DecidableEq, Repr

/-- The `Details interface{}` field of `AppError`: either absent (`nil`),
a `[]ValidationError`, or some other opaque value. -/
inductive DetailsVal where
  | validationErrors (l : List ValidationError)
  | other (s : String)
deriving DecidableEq, Repr

/-- The `Message interface{}` field of `echo.HTTPError`, as dispatched by
the `switch m := httpErr.Message.(type)` in `ErrorHandler`: a string, an
error (whose `Error()` string we carry), or anything else (whose
`fmt.Sprint` rendering we carry). -/
inductive EchoMsg where
  | str (s : String)
  | errMsg (s : String)
  | other (s : String)
deriving DecidableEq, Repr

/-- A Go `error` value as the central handler can receive it:
`*response.AppError` (fields in the source's order: `StatusCode`,
`Message`, `Code`, `Details`, `Err`), `*echo.HTTPError` (its `Code` and
`Message`), or any other error (opaque, carrying its description). -/
inductive GoError where
  | app (statusCode : Nat) (message : String) (code : String)
        (details : Option DetailsVal) (err : Option GoError)
  | echoHTTP (code : Nat) (message : EchoMsg)
  | generic (desc : String)

/-- Embeds `response.AppError` from `internal/response/error.go`. -/
structure AppError where
  statusCode : Nat
  message : String
  code : String
  details : Option DetailsVal
  err : Option GoError


/-- View an `AppError` as a Go error value. -/
def AppError.toGoError (e : AppError) : GoError :=
  .app e.statusCode e.message e.code e.details e.err

/-- Embeds `response.NewAppError`. -/
def NewAppError (status : Nat) (code message : String)
    (details : Option DetailsVal) (err : Option GoError) : AppError :=
  { statusCode := status, message := message, code := code,
    details := details, err := err }

/-- Embeds `response.ErrUnauthorized`. -/
def ErrUnauthorized (message : String) : AppError :=
  NewAppError 401 "ERR_UNAUTHORIZED" message none none

/-- Embeds `response.ErrForbidden`. -/
def ErrForbidden (message : String) : AppError :=
  NewAppError 403 "ERR_FORBIDDEN" message none none

/-- Embeds `response.ErrInternalError`. -/
def ErrInternalError (err : Option GoError) : AppError :=
  NewAppError 500 "ERR_INTERNAL" "Something went wrong" none err

/-- Embeds `response.ErrValidationFailed`. -/
def ErrValidationFailed (details : List ValidationError) : AppError :=
  NewAppError 422 "ERR_VALIDATION" "Validation failed"
    (some (.validationErrors details)) none

/-- The `errorResponse` wire struct of `internal/response/error.go`
(echo variant).  `Details` is tagged `omitempty`, as is `DebugStack`. -/
structure ErrorResponseBody where
  success : Bool
  timestamp : String
  message : String
  requestID : String
  errorCode : String
  details : Option DetailsVal
  debugStack : String
deriving DecidableEq, Repr

/-- The `successResponse[T]` wire struct of the echo success builder. -/
structure SuccessResponseBody where
  success : Bool
  timestamp : String
  message : String
  requestID : String
  data : Option DataVal
deriving DecidableEq, Repr

/-- The JSON keys actually emitted for an `errorResponse`: `details` and
`debug_stack` carry `omitempty`, so they are present exactly when
non-nil / non-empty. -/
def ErrorResponseBody.serializedKeys (b : ErrorResponseBody) : List String :=
  ["success", "timestamp", "message", "request_id", "error_code"]
    ++ (if b.details.isSome then ["details"] else [])
    ++ (if b.debugStack ≠ "" then ["debug_stack"] else [])

/-- A body written to the echo response: an error envelope, a success
envelope, or the empty no-content body. -/
inductive WireBody where
  | errorBody (b : ErrorResponseBody)
  | successBody (b : SuccessResponseBody)
  | noContent
deriving DecidableEq, Repr

/-- The observable state of `c.Response()`: the `Committed` flag, the
`X-Request-Id` response header, and the ordered writes performed. -/
structure EchoResponse where
  committed : Bool
  headerRequestID : String
  writes : List (Nat × WireBody)
deriving DecidableEq, Repr

/-- Models `c.JSON(status, body)`: appends the write and commits the response. -/
def EchoResponse.writeJSON (c : EchoResponse) (status : Nat)
    (body : WireBody) : EchoResponse :=
  { c with committed := true, writes := c.writes ++ [(status, body)] }

/-- Models `c.NoContent(status)`: writes the status with an empty body. -/
def EchoResponse.writeNoContent (c : EchoResponse) (status : Nat) :
    EchoResponse :=
  { c with committed := true, writes := c.writes ++ [(status, .noContent)] }

/-- Models `time.Now()`, carrying both renderings the source code applies to it:
`Format(time.RFC3339)` and `Unix()`. -/
structure Clock where
  rfc3339 : String
  unixSec : Int
deriving DecidableEq, Repr

/-- The classification phase of `response.ErrorHandler`: the chain of
`errors.As` type switches that turns the incoming error into the
`*AppError` the envelope is built from.

* `*AppError`: used as-is, defaulting a zero `StatusCode` to 500 and an
  empty `Code` to `"ERR_UNKNOWN"`;
* `*echo.HTTPError`: wrapped into an `AppError` with `Code "ERR_ECHO"`,
  `StatusCode` taken from `httpErr.Code`, message extracted by the type
  switch on `httpErr.Message`, and `Err` set to the original error;
* anything else: `ErrInternalError(err)`. -/
def classifyError : GoError → AppError
  | .app statusCode message code details err =>
      { statusCode := if statusCode = 0 then 500 else statusCode
        message := message
        code := if code = "" then "ERR_UNKNOWN" else code
        details := details
        err := err }
  | .echoHTTP code message =>
      let msg := match message with
        | .str m => m
        | .errMsg m => m
        | .other m => m
      { statusCode := code, message := msg, code := "ERR_ECHO",
        details := none, err := some (.echoHTTP code message) }
  | .generic desc => ErrInternalError (some (.generic desc))

/-- Embeds `response.ErrorHandler(err, c)` from `internal/response/error.go`.
`isDev` is `config.IsDev()`, `stack` is `string(debug.Stack())` (a
non-empty string in Go), `now` is `time.Now()`.  Returns the observable
response state after the call. -/
def ErrorHandler (isDev : Bool) (stack : String) (now : Clock)
    (err : Option GoError) (c : EchoResponse) : EchoResponse :=
  match err with
  | none => c
  | some e =>
    if c.committed then c
    else
      let appErr := classifyError e
      let resp : ErrorResponseBody :=
        { success := false
          timestamp := now.rfc3339
          message := appErr.message
          errorCode := appErr.code
          requestID := c.headerRequestID
          details := appErr.details
          debugStack :=
            if isDev ∧ appErr.statusCode ≥ 500 ∧ appErr.err.isSome
            then stack else "" }
      c.writeJSON appErr.statusCode (.errorBody resp)

/-- Embeds `respondSuccess[T](c, status, message, data)` from the echo success
builder: returns unchanged when the response is committed, short-circuits
to `c.NoContent(204)` on `http.StatusNoContent`, otherwise writes the
success envelope. -/
def respondSuccess (now : Clock) (status : Nat) (message : String)
    (data : Option DataVal) (c : EchoResponse) : EchoResponse :=
  if c.committed then c
  else if status = 204 then c.writeNoContent 204
  else c.writeJSON status (.successBody
    { success := true
      timestamp := now.rfc3339
      message := message
      requestID := c.headerRequestID
      data := data })

/-! ## Validation translator (`CustomValidator` chunk, `ToValidationErrors`) -/

/-- One `validator.FieldError` of a `validator.ValidationErrors` slice,
as consumed by the translator: `Field()`, `Tag()` (the violated
constraint) and `Param()` (the constraint parameter). -/
structure FieldError where
  field : String
  tag : String
  param : String
deriving DecidableEq, Repr

/-- The `error` argument of `ToValidationErrors`, as its
`errors.As(err, &validationErrors)` dispatch sees it: either a
`validator.ValidationErrors` slice, or any other error value. -/
inductive ValidatorInput where
  | validationErrors (l : List FieldError)
  | otherError (s : String)
deriving DecidableEq, Repr

/-- Embeds `validationMessage(e)`: the fixed constraint-tag → message table. -/
def validationMessage (e : FieldError) : String :=
  match e.tag with
  | "required" => "This field is required"
  | "email" => "Must be a valid email address"
  | "min" => "Must be at least " ++ e.param ++ " characters/items"
  | "max" => "Must be at most " ++ e.param ++ " characters/items"
  | "gte" => "Must be greater than or equal to " ++ e.param
  | "gt" => "Must be greater than " ++ e.param
  | "lte" => "Must be less than or equal to " ++ e.param
  | "lt" => "Must be less than " ++ e.param
  | "len" => "Must be exactly " ++ e.param ++ " characters long"
  | "alpha" => "Must contain only letters"
  | "alphanum" => "Must contain only letters and numbers"
  | "numeric" => "Must be a valid numeric value"
  | "url" => "Must be a valid URL"
  | "uuid" => "Must be a valid UUID"
  | "ip" => "Must be a valid IP address"
  | "oneof" => "Must be one of: " ++ e.param
  | _ => "Invalid value"

/-- The constraint tags the `validationMessage` switch handles; any other
tag falls through to the generic `"Invalid value"`. -/
def knownValidationTags : List String :=
  ["required", "email", "min", "max", "gte", "gt", "lte", "lt", "len",
   "alpha", "alphanum", "numeric", "url", "uuid", "ip", "oneof"]

/-- Embeds `ToValidationErrors(err)`: if `err` is not a
`validator.ValidationErrors`, return the nil slice; otherwise append one
`ValidationError` per field error, in iteration order. -/
def ToValidationErrors : ValidatorInput → List ValidationError
  | .otherError _ => []
  | .validationErrors l =>
      l.map fun fieldError =>
        { field := fieldError.field, message := validationMessage fieldError }

/-! ## JWT middleware helpers (`middleware` chunk of the service file) -/

/-- Models `jwt.RegisteredClaims` embedded in `JWTClaims`. -/
structure RegisteredClaims where
  issuer : String
  audience : List String
  expiresAt : Option Int
  notBefore : Option Int
  issuedAt : Option Int
deriving DecidableEq, Repr

/-- Embeds `middleware.JWTClaims`. -/
structure JWTClaims where
  userID : String
  username : String
  role : String
  tokenType : String
  registered : RegisteredClaims
deriving DecidableEq, Repr

/-- The reasons token authentication can fail before the handler runs:
no credential found by the lookup chain, or a verification error
(malformed token, expired token, invalid signature).  The echo-jwt
library hands the underlying error to the configured `ErrorHandler`;
the repository's handler ignores it. -/
inductive AuthFailure where
  | missingToken
  | malformed
  | expired
  | signatureInvalid
deriving DecidableEq, Repr

/-- The `ErrorHandler` closure configured in `JWTMiddleware`: invoked by
the echo-jwt library with the specific extraction/verification error;
returns `response.ErrUnauthorized("Invalid or missing authentication
token")` without inspecting it. -/
def JWTMiddlewareOnError (f : AuthFailure) : AppError :=
  match f with
  | _ => ErrUnauthorized "Invalid or missing authentication token"

/-- Outcome of the library's credential extraction plus cryptographic
verification for one request (external collaborator, abstracted at its
boundary): either verified claims, or one of the failure causes. -/
inductive TokenVerification where
  | valid (claims : JWTClaims)
  | failed (f : AuthFailure)
deriving DecidableEq, Repr

/-- The middleware produced by `JWTMiddleware(secretKey)` as one request
sees it: on a verification failure the library calls the configured
`ErrorHandler` and the request errors; on success the claims are
attached to the context and the chain continues. -/
def JWTMiddleware (v : TokenVerification) : Except AppError JWTClaims :=
  match v with
  | .valid claims => .ok claims
  | .failed f => .error (JWTMiddlewareOnError f)

/-- The value stored under the `"user"` context key, as the two type
assertions of `GetClaims` probe it: absent, a `*jwt.Token` whose
`Claims` is a `*JWTClaims`, a `*jwt.Token` with some other claims type,
or a non-token value. -/
inductive ContextUserValue where
  | tokenWithJWTClaims (claims : JWTClaims)
  | tokenWithOtherClaims
  | notAToken
deriving DecidableEq, Repr

/-- Embeds `middleware.GetClaims(c)`: the `c.Get("user").(*jwt.Token)` and
`token.Claims.(*JWTClaims)` assertions, each failing with its own
`ErrUnauthorized` message. -/
def GetClaims : Option ContextUserValue → Except AppError JWTClaims
  | some (.tokenWithJWTClaims claims) => .ok claims
  | some .tokenWithOtherClaims => .error (ErrUnauthorized "Failed to validate token")
  | some .notAToken => .error (ErrUnauthorized "JWT token missing or invalid")
  | none => .error (ErrUnauthorized "JWT token missing or invalid")

/-- Outcome of `jwt.ParseWithClaims(tokenString, &JWTClaims{}, keyFunc)`
(external collaborator, abstracted at its boundary): a parse/verify
error, or a token carrying the decoded claims and its `Valid` flag.
The claims object is the `*JWTClaims` passed in, so the type assertion
on `token.Claims` always succeeds. -/
inductive ParseOutcome where
  | parseError (msg : String)
  | parsed (claims : JWTClaims) (valid : Bool)
deriving DecidableEq, Repr

/-- Embeds `middleware.ValidateRefreshToken`: propagate a parse error; then
reject unless the token is valid and `TokenType == "refresh"`. -/
def ValidateRefreshToken : ParseOutcome → Except String JWTClaims
  | .parseError msg => .error msg
  | .parsed claims valid =>
      if ¬valid ∨ claims.tokenType ≠ "refresh" then .error "invalid token"
      else .ok claims

/-- Result of one invocation of the middleware returned by
`RequireRole`: either the next handler ran (with the context, and hence
the claims, passed through unchanged), or the request errored. -/
inductive GateResult where
  | proceed (claims : JWTClaims)
  | reject (e : AppError)

/-- Embeds `middleware.RequireRole(allowedRoles...)`: obtain claims via
`GetClaims`, returning its error unchanged on failure; scan
`allowedRoles` for `claims.Role` and run `next` if found; otherwise
`ErrForbidden("Insufficient permissions")`. -/
def RequireRole (allowedRoles : List String)
    (ctxUser : Option ContextUserValue) : GateResult :=
  match GetClaims ctxUser with
  | .error err => .reject err
  | .ok claims =>
      if allowedRoles.any (fun role => claims.role = role) then
        .proceed claims
      else
        .reject (ErrForbidden "Insufficient permissions")

/-! ## The gin response variant (`error_response.go` chunks) -/

namespace Gin

/-- Embeds `response.ErrorDetail` of the gin variant. -/
structure ErrorDetail where
  code : String
  message : String
  details : List (String × String)
deriving DecidableEq, Repr

/-- Embeds `response.ErrorResponse` of the gin variant: note `Timestamp int64`,
serialized as a unix-seconds number. -/
structure ErrorResponse where
  success : Bool
  error : ErrorDetail
  message : String
  timestamp : Int
deriving DecidableEq, Repr

/-- Embeds `response.Response` of the gin variant (success envelope): note
`Timestamp int64`, serialized as a unix-seconds number. -/
structure Response where
  success : Bool
  response : Option DataVal
  message : String
  timestamp : Int
deriving DecidableEq, Repr

/-- Embeds `response.OK(c, data)` of the gin variant: the status and envelope
written by `c.JSON(http.StatusOK, ...)`, with `Timestamp:
time.Now().Unix()`. -/
def OK (now : Clock) (data : Option DataVal) : Nat × Response :=
  (200, { success := true, response := data,
          message := "Request successful", timestamp := now.unixSec })

/-- Embeds `response.InternalError(c)` of the gin variant, with `Timestamp:
time.Now().Unix()`. -/
def InternalError (now : Clock) : Nat × ErrorResponse :=
  (500, { success := false
          message := "Something went wrong on our end"
          error := { code := "INTERNAL_ERROR",
                     message := "An internal error occurred", details := [] }
          timestamp := now.unixSec })

end Gin

/-! ## Timestamp wire formats (claim C9) -/

/-- A serialized timestamp value on the wire: a JSON string (a Go
`string` field) or a JSON number (a Go `int64` field). -/
inductive TimestampWire where
  | asString (s : String)
  | asInt (n : Int)
deriving DecidableEq, Repr

/-- A choice of one timestamp format. -/
inductive TimestampFormat where
  | rfc3339
  | unixSeconds
deriving DecidableEq, Repr

/-- The wire rendering of `time.Now()` under a chosen format. -/
def renderTimestamp (now : Clock) : TimestampFormat → TimestampWire
  | .rfc3339 => .asString now.rfc3339
  | .unixSeconds => .asInt now.unixSec

/-- The wire timestamp of the echo success envelope built by
`respondSuccess` (a `string` field). -/
def echoSuccessTimestamp (now : Clock) (status : Nat) (message : String)
    (data : Option DataVal) (c : EchoResponse) : Option TimestampWire :=
  match (respondSuccess now status message data c).writes.getLast? with
  | some (_, .successBody b) => some (.asString b.timestamp)
  | _ => none

/-- The wire timestamp of the echo error envelope written by
`ErrorHandler` (a `string` field). -/
def echoErrorTimestamp (isDev : Bool) (stack : String) (now : Clock)
    (err : Option GoError) (c : EchoResponse) : Option TimestampWire :=
  match (ErrorHandler isDev stack now err c).writes.getLast? with
  | some (_, .errorBody b) => some (.asString b.timestamp)
  | _ => none

/-- The wire timestamp of the gin success envelope (an `int64` field). -/
def ginSuccessTimestamp (now : Clock) (data : Option DataVal) : TimestampWire :=
  .asInt (Gin.OK now data).2.timestamp

/-- The wire timestamp of the gin error envelope (an `int64` field). -/
def ginErrorTimestamp (now : Clock) : TimestampWire :=
  .asInt (Gin.InternalError now).2.timestamp

/-! ## Concrete fixtures used by witnesses and counterexamples -/

/-- A fresh, uncommitted response with no writes. -/
def freshResponse : EchoResponse :=
  { committed := false, headerRequestID := "", writes := [] }

/-- A concrete instant: 2026-01-01T00:00:00Z. -/
def testClock : Clock :=
  { rfc3339 := "2026-01-01T00:00:00Z", unixSec := 1767225600 }

/-- Concrete claims of a valid access token for user alice. -/
def aliceAccessClaims : JWTClaims :=
  { userID := "8a7df0a8-0000-0000-0000-000000000001"
    username := "alice"
    role := "admin"
    tokenType := "access"
    registered :=
      { issuer := "", audience := [], expiresAt := some 1767229200,
        notBefore := none, issuedAt := some 1767225600 } }

/-- Concrete claims of a caller holding the viewer role. -/
def viewerClaims : JWTClaims :=
  { userID := "8a7df0a8-0000-0000-0000-000000000002"
    username := "bob"
    role := "viewer"
    tokenType := "access"
    registered :=
      { issuer := "", audience := [], expiresAt := some 1767229200,
        notBefore := none, issuedAt := some 1767225600 } }

/-! ## Shared lemmas about the central handler -/

/-- On an uncommitted response and a non-nil error, `ErrorHandler`
performs exactly one `c.JSON` write, at the classified error's status,
of the envelope built from the classified error. -/
theorem errorHandler_uncommitted (isDev : Bool) (stack : String)
    (now : Clock) (e : GoError) (c : EchoResponse)
    (h : c.committed = false) :
    ErrorHandler isDev stack now (some e) c =
      c.writeJSON (classifyError e).statusCode (.errorBody
        { success := false
          timestamp := now.rfc3339
          message := (classifyError e).message
          errorCode := (classifyError e).code
          requestID := c.headerRequestID
          details := (classifyError e).details
          debugStack :=
            if isDev ∧ (classifyError e).statusCode ≥ 500
                ∧ (classifyError e).err.isSome
            then stack else "" }) := by
  simp [ErrorHandler, h]

/-! ## The claims -/

/-- C1: a `DomainError` (`AppError`) fed to the central handler is used
as-is, except that a zero `StatusCode` defaults to 500 and an empty
`Code` defaults to `"ERR_UNKNOWN"`; a non-zero status and a non-empty
code pass through unchanged.  Stated on the single write `ErrorHandler`
performs: its status and the envelope's `error_code` are exactly the
defaulted values. -/
theorem C1_appError_defaulting (isDev : Bool) (stack : String)
    (now : Clock) (statusCode : Nat) (message code : String)
    (details : Option DetailsVal) (cause : Option GoError)
    (c : EchoResponse) (h : c.committed = false) :
    ∃ b : ErrorResponseBody,
      (ErrorHandler isDev stack now
          (some (.app statusCode message code details cause)) c).writes
        = c.writes
            ++ [((if statusCode = 0 then 500 else statusCode), .errorBody b)]
      ∧ b.errorCode = (if code = "" then "ERR_UNKNOWN" else code)
      ∧ b.message = message := by
  rw [errorHandler_uncommitted isDev stack now _ c h]
  exact ⟨_, rfl, rfl, rfl⟩

/-- C1 witness: a concrete `AppError` with status 0 and empty code is
written as status 500 with `error_code = "ERR_UNKNOWN"`. -/
theorem C1_appError_defaulting_witness :
    ∃ b : ErrorResponseBody,
      (ErrorHandler false "stack" testClock
          (some (.app 0 "boom" "" none none)) freshResponse).writes
        = freshResponse.writes ++ [((if 0 = 0 then 500 else 0), .errorBody b)]
      ∧ b.errorCode = (if "" = "" then "ERR_UNKNOWN" else "")
      ∧ b.message = "boom" :=
  C1_appError_defaulting false "stack" testClock 0 "boom" "" none none
    freshResponse rfl

/-- C2: an error that is neither an `AppError` nor an `echo.HTTPError`
is wrapped by `ErrInternalError`: the handler writes status 500 with
`error_code = "ERR_INTERNAL"`, message "Something went wrong" and no
details; the classified error retains the original error as its `Err`
cause; and the written response state is identical for any two such
errors — the cause never reaches the serialized body. -/
theorem C2_opaque_internal (isDev : Bool) (stack : String) (now : Clock)
    (d : String) (c : EchoResponse) (h : c.committed = false) :
    (∃ b : ErrorResponseBody,
      (ErrorHandler isDev stack now (some (.generic d)) c).writes
        = c.writes ++ [(500, .errorBody b)]
      ∧ b.errorCode = "ERR_INTERNAL"
      ∧ b.message = "Something went wrong"
      ∧ b.details = none)
    ∧ (classifyError (.generic d)).err = some (.generic d)
    ∧ ∀ d₂ : String,
        ErrorHandler isDev stack now (some (.generic d₂)) c
          = ErrorHandler isDev stack now (some (.generic d)) c := by
  refine ⟨?_, rfl, ?_⟩
  · rw [errorHandler_uncommitted isDev stack now _ c h]
    exact ⟨_, rfl, rfl, rfl, rfl⟩
  · intro d₂
    rw [errorHandler_uncommitted isDev stack now _ c h,
        errorHandler_uncommitted isDev stack now _ c h]
    simp [classifyError, ErrInternalError, NewAppError]

/-- C2 witness: a concrete opaque error (a database failure string)
surfaces as 500 / `ERR_INTERNAL` / "Something went wrong", keeps the
cause internally, and produces the same response as any other opaque
error. -/
theorem C2_opaque_internal_witness :
    (∃ b : ErrorResponseBody,
      (ErrorHandler false "stack" testClock
          (some (.generic "pq: connection refused")) freshResponse).writes
        = freshResponse.writes ++ [(500, .errorBody b)]
      ∧ b.errorCode = "ERR_INTERNAL"
      ∧ b.message = "Something went wrong"
      ∧ b.details = none)
    ∧ (classifyError (.generic "pq: connection refused")).err
        = some (.generic "pq: connection refused")
    ∧ ∀ d₂ : String,
        ErrorHandler false "stack" testClock (some (.generic d₂)) freshResponse
          = ErrorHandler false "stack" testClock
              (some (.generic "pq: connection refused")) freshResponse :=
  C2_opaque_internal false "stack" testClock "pq: connection refused"
    freshResponse rfl

/-- C3 counterexample: feeding a concrete routing 404 (`echo.HTTPError`
with code 404, message "Not Found") to the central handler yields an
envelope whose `error_code` is `"ERR_ECHO"`, which is not the
`"ERR_FRAMEWORK"` the claim states. -/
theorem C3_counterexample :
    (ErrorHandler false "stack" testClock
        (some (.echoHTTP 404 (.str "Not Found"))) freshResponse).writes
      = [(404, .errorBody
          { success := false, timestamp := testClock.rfc3339,
            message := "Not Found", requestID := "",
            errorCode := "ERR_ECHO", details := none, debugStack := "" })]
    ∧ ("ERR_ECHO" : String) ≠ "ERR_FRAMEWORK" := by
  constructor
  · simp [ErrorHandler, freshResponse, classifyError, EchoResponse.writeJSON]
  · decide

/-- C3 (amended): a transport-framework error (`echo.HTTPError`)
carrying a status and message is wrapped into an `AppError` whose code
is `"ERR_ECHO"` and whose status equals the original framework error's
status; the handler writes exactly that status. -/
theorem C3_echo_wrapping (isDev : Bool) (stack : String) (now : Clock)
    (code : Nat) (msg : EchoMsg) (c : EchoResponse)
    (h : c.committed = false) :
    ∃ b : ErrorResponseBody,
      (ErrorHandler isDev stack now (some (.echoHTTP code msg)) c).writes
        = c.writes ++ [(code, .errorBody b)]
      ∧ b.errorCode = "ERR_ECHO"
      ∧ (classifyError (.echoHTTP code msg)).statusCode = code := by
  rw [errorHandler_uncommitted isDev stack now _ c h]
  exact ⟨_, rfl, rfl, rfl⟩

/-- C3 witness: a concrete 405 framework error is written with status
405 and `error_code = "ERR_ECHO"`. -/
theorem C3_echo_wrapping_witness :
    ∃ b : ErrorResponseBody,
      (ErrorHandler false "stack" testClock
          (some (.echoHTTP 405 (.str "Method Not Allowed"))) freshResponse).writes
        = freshResponse.writes ++ [(405, .errorBody b)]
      ∧ b.errorCode = "ERR_ECHO"
      ∧ (classifyError (.echoHTTP 405 (.str "Method Not Allowed"))).statusCode
          = 405 :=
  C3_echo_wrapping false "stack" testClock 405 (.str "Method Not Allowed")
    freshResponse rfl

/-- C4: for every envelope the central handler writes, the serialized
body carries the `debug_stack` key exactly when development mode is on,
the (classified) status is at least 500, and a wrapped cause is present;
in every other case the key is omitted from the serialized body
(`omitempty` on an empty string).  `stack ≠ ""` reflects that
`debug.Stack()` never returns an empty string. -/
theorem C4_debug_stack_key (isDev : Bool) (stack : String) (now : Clock)
    (e : GoError) (c : EchoResponse) (hc : c.committed = false)
    (hs : stack ≠ "") :
    ∃ b : ErrorResponseBody,
      (ErrorHandler isDev stack now (some e) c).writes
        = c.writes ++ [((classifyError e).statusCode, .errorBody b)]
      ∧ ("debug_stack" ∈ b.serializedKeys
          ↔ isDev = true ∧ (classifyError e).statusCode ≥ 500
              ∧ (classifyError e).err.isSome = true) := by
  rw [errorHandler_uncommitted isDev stack now _ c hc]
  refine ⟨_, rfl, ?_⟩
  simp only [ErrorResponseBody.serializedKeys]
  by_cases hcond : isDev = true ∧ (classifyError e).statusCode ≥ 500
      ∧ (classifyError e).err.isSome = true
  · simp [hcond, hs]
  · simp [hcond]

/-- C4 witness: in dev mode, a concrete opaque error (status 500, cause
present) yields an envelope whose serialized keys include
`debug_stack`. -/
theorem C4_debug_stack_key_witness :
    ∃ b : ErrorResponseBody,
      (ErrorHandler true "goroutine 1 [running]" testClock
          (some (.generic "pq: connection refused")) freshResponse).writes
        = freshResponse.writes
            ++ [((classifyError (.generic "pq: connection refused")).statusCode,
                 .errorBody b)]
      ∧ ("debug_stack" ∈ b.serializedKeys
          ↔ true = true
              ∧ (classifyError (.generic "pq: connection refused")).statusCode ≥ 500
              ∧ (classifyError (.generic "pq: connection refused")).err.isSome
                  = true) :=
  C4_debug_stack_key true "goroutine 1 [running]" testClock
    (.generic "pq: connection refused") freshResponse rfl (by simp)

/-- C5: on a validation failure with N field errors the translator
returns exactly N `ValidationError` entries, positionally aligned with
the input (same order), each message drawn from the fixed tag table:
`required` maps to "This field is required" and any tag outside the
table's cases maps to "Invalid value"; on an input that is not a
validation failure it returns the empty list (and, being a total Lean
function, never raises). -/
theorem C5_translator (l : List FieldError) (s : String) :
    (ToValidationErrors (.validationErrors l)).length = l.length
    ∧ (∀ i : Nat, (ToValidationErrors (.validationErrors l))[i]?
        = (l[i]?).map fun e =>
            { field := e.field, message := validationMessage e })
    ∧ (∀ e : FieldError, e.tag = "required" →
        validationMessage e = "This field is required")
    ∧ (∀ e : FieldError, e.tag ∉ knownValidationTags →
        validationMessage e = "Invalid value")
    ∧ ToValidationErrors (.otherError s) = [] := by
  refine ⟨by simp [ToValidationErrors], ?_, ?_, ?_, rfl⟩
  · intro i
    simp [ToValidationErrors]
  · intro e he
    simp [validationMessage, he]
  · intro e he
    unfold validationMessage
    split <;> simp_all [knownValidationTags]

/-- C5 witness: the two-field create-request scenario (`Name` violating
`required`, `Description` violating `max=1000`) yields exactly two
entries in declaration order; a tag outside the table yields "Invalid
value"; and a non-validation error yields the empty list. -/
theorem C5_translator_witness :
    (ToValidationErrors (.validationErrors
        [⟨"Name", "required", ""⟩, ⟨"Description", "max", "1000"⟩])).length
      = 2
    ∧ validationMessage ⟨"Name", "required", ""⟩ = "This field is required"
    ∧ validationMessage ⟨"Phone", "indian_phone", ""⟩ = "Invalid value"
    ∧ ToValidationErrors (.otherError "pq: connection refused") = [] := by
  have h := C5_translator
    [⟨"Name", "required", ""⟩, ⟨"Description", "max", "1000"⟩]
    "pq: connection refused"
  exact ⟨h.1, h.2.2.1 _ rfl, h.2.2.2.1 _ (by decide), h.2.2.2.2⟩

/-- C6: whatever the token-authentication failure cause — credential
absent, malformed, expired, or signature invalid — the JWT middleware
yields the one same `Unauthorized` error (status 401,
`ERR_UNAUTHORIZED`, message "Invalid or missing authentication token"):
the configured error handler never distinguishes the cause. -/
theorem C6_uniform_unauthorized (f : AuthFailure) :
    JWTMiddleware (.failed f)
      = .error { statusCode := 401,
                 message := "Invalid or missing authentication token",
                 code := "ERR_UNAUTHORIZED", details := none, err := none }
    ∧ ∀ f₂ : AuthFailure,
        JWTMiddleware (.failed f) = JWTMiddleware (.failed f₂) := by
  constructor
  · cases f <;> rfl
  · intro f₂
    cases f <;> cases f₂ <;> rfl

/-- C7: `ValidateRefreshToken` rejects any token whose signature
verifies (`Valid = true`) but whose `token_type` claim is not
`"refresh"` — in particular a valid access token — and it returns
claims only when the parse succeeded, the token is valid, and
`token_type = "refresh"`. -/
theorem C7_refresh_token_type (claims : JWTClaims) (p : ParseOutcome) :
    (claims.tokenType ≠ "refresh" →
      ValidateRefreshToken (.parsed claims true) = .error "invalid token")
    ∧ (∀ c : JWTClaims, ValidateRefreshToken p = .ok c →
        p = .parsed c true ∧ c.tokenType = "refresh") := by
  constructor
  · intro h
    simp [ValidateRefreshToken, h]
  · intro c hc
    cases p with
    | parseError msg => simp [ValidateRefreshToken] at hc
    | parsed claims' valid =>
        cases valid with
        | false => simp [ValidateRefreshToken] at hc
        | true =>
            by_cases ht : claims'.tokenType = "refresh"
            · simp [ValidateRefreshToken, ht] at hc
              subst hc
              exact ⟨rfl, ht⟩
            · simp [ValidateRefreshToken, ht] at hc

/-- C7 witness: a concrete valid access token (signature verifies,
`token_type = "access"`) is rejected by `ValidateRefreshToken`. -/
theorem C7_refresh_token_type_witness :
    ValidateRefreshToken (.parsed aliceAccessClaims true)
      = .error "invalid token" :=
  (C7_refresh_token_type aliceAccessClaims
    (.parsed aliceAccessClaims true)).1 (by decide)

/-- C8: the `RequireRole(allowed...)` gate propagates a `GetClaims`
failure unchanged; when the claims' role is a member of `allowed` it
runs the next handler with the claims untouched; otherwise it rejects
with status 403, `ERR_FORBIDDEN`, message "Insufficient permissions". -/
theorem C8_require_role (allowed : List String)
    (ctxUser : Option ContextUserValue) (e : AppError)
    (claims : JWTClaims) :
    (GetClaims ctxUser = .error e → RequireRole allowed ctxUser = .reject e)
    ∧ (GetClaims ctxUser = .ok claims → claims.role ∈ allowed →
        RequireRole allowed ctxUser = .proceed claims)
    ∧ (GetClaims ctxUser = .ok claims → claims.role ∉ allowed →
        RequireRole allowed ctxUser = .reject
          { statusCode := 403, message := "Insufficient permissions",
            code := "ERR_FORBIDDEN", details := none, err := none }) := by
  refine ⟨?_, ?_, ?_⟩
  · intro h
    simp [RequireRole, h]
  · intro h hmem
    have : allowed.any (fun role => claims.role = role) = true := by
      simp only [List.any_eq_true, decide_eq_true_eq]
      exact ⟨claims.role, hmem, rfl⟩
    simp [RequireRole, h, this]
  · intro h hmem
    have : allowed.any (fun role => claims.role = role) = false := by
      simp only [List.any_eq_false, decide_eq_true_eq]
      intro x hx hoeq
      exact hmem (hoeq ▸ hx)
    simp [RequireRole, h, this, ErrForbidden, NewAppError]

/-- C8 witness: a caller with role "viewer" hitting a gate
`RequireRole("admin")` is rejected with the concrete 403
`ERR_FORBIDDEN` / "Insufficient permissions" error; with role "admin"
the next handler runs with the same claims; and a missing context value
propagates the accessor's `Unauthorized` error unchanged. -/
theorem C8_require_role_witness :
    RequireRole ["admin"] (some (.tokenWithJWTClaims viewerClaims))
      = .reject
          { statusCode := 403, message := "Insufficient permissions",
            code := "ERR_FORBIDDEN", details := none, err := none }
    ∧ RequireRole ["admin"] (some (.tokenWithJWTClaims aliceAccessClaims))
        = .proceed aliceAccessClaims
    ∧ RequireRole ["admin"] none
        = .reject (ErrUnauthorized "JWT token missing or invalid") := by
  refine ⟨?_, ?_, ?_⟩
  · exact (C8_require_role ["admin"] (some (.tokenWithJWTClaims viewerClaims))
      (ErrUnauthorized "JWT token missing or invalid") viewerClaims).2.2
      rfl (by decide)
  · exact (C8_require_role ["admin"]
      (some (.tokenWithJWTClaims aliceAccessClaims))
      (ErrUnauthorized "JWT token missing or invalid")
      aliceAccessClaims).2.1 rfl (by decide)
  · exact (C8_require_role ["admin"] none
      (ErrUnauthorized "JWT token missing or invalid") viewerClaims).1 rfl

/-- C9 counterexample: at one concrete instant, the echo success
envelope serializes its timestamp as a JSON string (the RFC3339
rendering) while the gin success envelope serializes it as a JSON
number (the unix-seconds rendering), and the two wire values are
distinct — so no single fixed format covers both emissions. -/
theorem C9_counterexample :
    echoSuccessTimestamp testClock 200 "Item retrieved successfully"
        (some "{}") freshResponse
      = some (.asString "2026-01-01T00:00:00Z")
    ∧ ginSuccessTimestamp testClock (some "{}")
      = .asInt 1767225600
    ∧ (TimestampWire.asString "2026-01-01T00:00:00Z"
        ≠ TimestampWire.asInt 1767225600) := by
  refine ⟨?_, rfl, by decide⟩
  simp [echoSuccessTimestamp, respondSuccess, freshResponse,
    EchoResponse.writeJSON, testClock]

/-- C9 (amended): each implementation family is internally uniform but
the two families differ — the echo envelopes (success and error
variants) both serialize `timestamp` as the RFC3339 string rendering of
the clock, while the gin envelopes (success and error variants) both
serialize it as the unix-seconds integer rendering; the two renderings
are distinct wire shapes, so the repository as a whole does not use one
single fixed format. -/
theorem C9_timestamp_formats (now : Clock) (status : Nat)
    (message : String) (data : Option DataVal) (isDev : Bool)
    (stack : String) (e : GoError) (c : EchoResponse)
    (hc : c.committed = false) (hstatus : status ≠ 204) :
    echoSuccessTimestamp now status message data c
      = some (renderTimestamp now .rfc3339)
    ∧ echoErrorTimestamp isDev stack now (some e) c
      = some (renderTimestamp now .rfc3339)
    ∧ ginSuccessTimestamp now data = renderTimestamp now .unixSeconds
    ∧ ginErrorTimestamp now = renderTimestamp now .unixSeconds
    ∧ renderTimestamp now .rfc3339 ≠ renderTimestamp now .unixSeconds := by
  refine ⟨?_, ?_, rfl, rfl, by simp [renderTimestamp]⟩
  · simp [echoSuccessTimestamp, respondSuccess, hc, hstatus,
      EchoResponse.writeJSON, renderTimestamp]
  · rw [echoErrorTimestamp, errorHandler_uncommitted isDev stack now e c hc]
    simp [EchoResponse.writeJSON, renderTimestamp]

/-- C9 amended-claim witness: at the concrete test instant, a concrete
success envelope and a concrete error envelope of each family exhibit
the two distinct formats. -/
theorem C9_timestamp_formats_witness :
    echoSuccessTimestamp testClock 200 "Item retrieved successfully"
        (some "{}") freshResponse
      = some (renderTimestamp testClock .rfc3339)
    ∧ echoErrorTimestamp false "stack" testClock
        (some (.generic "pq: connection refused")) freshResponse
      = some (renderTimestamp testClock .rfc3339)
    ∧ ginSuccessTimestamp testClock (some "{}")
      = renderTimestamp testClock .unixSeconds
    ∧ ginErrorTimestamp testClock = renderTimestamp testClock .unixSeconds
    ∧ renderTimestamp testClock .rfc3339
      ≠ renderTimestamp testClock .unixSeconds :=
  C9_timestamp_formats testClock 200 "Item retrieved successfully"
    (some "{}") false "stack" (.generic "pq: connection refused")
    freshResponse rfl (by decide)

/-- C10: once a response is committed neither envelope-emitting entry
point writes anything further — the success builder and the central
handler each return the response state unchanged on a committed
response, the handler also returns it unchanged on a nil error, and
since the success builder always leaves the response committed, a
second invocation of the success builder after a first one is a
no-op. -/
theorem C10_committed_no_write (now : Clock) (status : Nat)
    (message : String) (data : Option DataVal) (isDev : Bool)
    (stack : String) (err : Option GoError) (c : EchoResponse) :
    (c.committed = true → respondSuccess now status message data c = c)
    ∧ (c.committed = true → ErrorHandler isDev stack now err c = c)
    ∧ ErrorHandler isDev stack now none c = c
    ∧ (respondSuccess now status message data c).committed = true
    ∧ (∀ (now₂ : Clock) (status₂ : Nat) (message₂ : String)
        (data₂ : Option DataVal),
        respondSuccess now₂ status₂ message₂ data₂
            (respondSuccess now status message data c)
          = respondSuccess now status message data c) := by
  have hcom : (respondSuccess now status message data c).committed = true := by
    by_cases h : c.committed = true
    · simp [respondSuccess, h]
    · simp only [Bool.not_eq_true] at h
      by_cases hs : status = 204
      · simp [respondSuccess, h, hs, EchoResponse.writeNoContent]
      · simp [respondSuccess, h, hs, EchoResponse.writeJSON]
  refine ⟨?_, ?_, ?_, hcom, ?_⟩
  · intro h
    simp [respondSuccess, h]
  · intro h
    cases err with
    | none => rfl
    | some e => simp [ErrorHandler, h]
  · rfl
  · intro now₂ status₂ message₂ data₂
    generalize hX : respondSuccess now status message data c = X at hcom ⊢
    simp [respondSuccess, hcom]

/-- C10 witness: on a concrete committed response the success builder
and the central handler are no-ops, the handler ignores a nil error,
and re-invoking the success builder after a first emission changes
nothing. -/
theorem C10_committed_no_write_witness :
    (({ committed := true, headerRequestID := "",
        writes := [] } : EchoResponse).committed = true →
      respondSuccess testClock 200 "ok" (some "{}")
          { committed := true, headerRequestID := "", writes := [] }
        = { committed := true, headerRequestID := "", writes := [] })
    ∧ (({ committed := true, headerRequestID := "",
          writes := [] } : EchoResponse).committed = true →
        ErrorHandler false "stack" testClock
            (some (.generic "pq: connection refused"))
            { committed := true, headerRequestID := "", writes := [] }
          = { committed := true, headerRequestID := "", writes := [] })
    ∧ ErrorHandler false "stack" testClock none
        { committed := true, headerRequestID := "", writes := [] }
      = { committed := true, headerRequestID := "", writes := [] }
    ∧ (respondSuccess testClock 200 "ok" (some "{}")
        { committed := true, headerRequestID := "", writes := [] }).committed
      = true
    ∧ (∀ (now₂ : Clock) (status₂ : Nat) (message₂ : String)
        (data₂ : Option DataVal),
        respondSuccess now₂ status₂ message₂ data₂
            (respondSuccess testClock 200 "ok" (some "{}")
              { committed := true, headerRequestID := "", writes := [] })
          = respondSuccess testClock 200 "ok" (some "{}")
              { committed := true, headerRequestID := "", writes := [] }) :=
  C10_committed_no_write testClock 200 "ok" (some "{}") false "stack"
    (some (.generic "pq: connection refused"))
    { committed := true, headerRequestID := "", writes := [] }

end GoBackend
